import Mathlib

/-!
Shallow embedding of the token core of `task_management_project`:
`src/app/auth.py` (create_access_token, verify_token), `src/app/config.py`
(Settings, get_private_key, get_public_key) and `src/generate_keys.py`
(generate_rsa_keys).  The third-party primitives the source calls —
PyJWT's `jwt.encode` / `jwt.decode` and the `cryptography` package's RSA
key generation and PEM serialization — are modelled symbolically but
faithfully to their documented behaviour (segment structure, algorithm
check before signature check, `nbf`/`exp` validation with `now >= exp`
meaning expired, ValueError on key material that cannot be deserialized).
Clock reads (`datetime.now(timezone.utc)`) are passed in explicitly, one
parameter per call site, in source order.  Times are integer Unix
seconds (PyJWT serializes datetimes through `utctimetuple`, dropping
sub-second precision).
-/

namespace TaskAuth

/-- JSON-style claim values as they occur in this code base: strings
(`sub`, `role`, …) and integers (the serialized `exp`/`iat`/`nbf`
timestamps). -/
inductive JValue where
  | s (v : String)
  | n (v : Int)
deriving DecidableEq, Repr

/-- A Python dict of claims: insertion-ordered association list with
unique keys maintained by `set`. -/
abbrev JDict := List (String × JValue)

/-- Python `d[k]` / `d.get(k)`: first binding of `k`. -/
def JDict.get (d : JDict) (k : String) : Option JValue :=
  match d with
  | [] => none
  | (k', v) :: rest => if k' = k then some v else JDict.get rest k

/-- One key-value assignment as performed by Python `dict.update`:
overwrite in place (position preserved) if the key exists, else append
at the end.  Python dicts have unique keys, so overwriting the first
binding is exact. -/
def JDict.set : JDict → String → JValue → JDict
  | [], k, v => [(k, v)]
  | (k', v') :: rest, k, v =>
    if k' = k then (k, v) :: rest else (k', v') :: JDict.set rest k v

/-- Python `d.update(e)`: apply `set` for each binding of `e` in order. -/
def JDict.update (d : JDict) (e : List (String × JValue)) : JDict :=
  e.foldl (fun acc p => JDict.set acc p.1 p.2) d

/-- RSA private key material as produced by
`rsa.generate_private_key(public_exponent=65537, key_size=key_size)`.
`entropy` stands for the random state consumed by generation. -/
structure RSAPrivateKey where
  key_size : Nat
  public_exponent : Nat
  entropy : Nat
deriving DecidableEq, Repr

/-- RSA public key material. -/
structure RSAPublicKey where
  key_size : Nat
  public_exponent : Nat
  entropy : Nat
deriving DecidableEq, Repr

/-- `private_key.public_key()`: the public component derivable from the
private key. -/
def RSAPrivateKey.public_key (sk : RSAPrivateKey) : RSAPublicKey :=
  ⟨sk.key_size, sk.public_exponent, sk.entropy⟩

/-- Contents of a file as this code base reads and writes them: a
serialized private key (`private_bytes(encoding, format,
encryption_algorithm)`), a serialized public key (`public_bytes(encoding,
format)`), or arbitrary text that is not a serialized key. -/
inductive FileContent where
  | privatePem (encoding : String) (format : String) (encryption : String) (sk : RSAPrivateKey)
  | publicPem (encoding : String) (format : String) (pk : RSAPublicKey)
  | raw (text : String)
deriving DecidableEq, Repr

/-- The file system visible to the code: paths mapped to contents. -/
abbrev FileSystem := List (String × FileContent)

def fsGet (fs : FileSystem) (path : String) : Option FileContent :=
  match fs with
  | [] => none
  | (p, c) :: rest => if p = path then some c else fsGet rest path

/-- `path.write_bytes(content)`: overwrite if the path is present, else
create the file. -/
def fsWrite : FileSystem → String → FileContent → FileSystem
  | [], path, c => [(path, c)]
  | (p, c') :: rest, path, c =>
    if p = path then (path, c) :: rest else (p, c') :: fsWrite rest path c

/-- Decidable equality for `Except` results, so that concrete runs of
the embedded functions can be checked by `decide`. -/
instance {e a : Type} [DecidableEq e] [DecidableEq a] :
    DecidableEq (Except e a) := fun x y =>
  match x, y with
  | .ok u, .ok v =>
    if h : u = v then .isTrue (by rw [h])
    else .isFalse (fun hc => h (Except.ok.inj hc))
  | .error u, .error v =>
    if h : u = v then .isTrue (by rw [h])
    else .isFalse (fun hc => h (Except.error.inj hc))
  | .ok _, .error _ => .isFalse (fun hc => Except.noConfusion hc)
  | .error _, .ok _ => .isFalse (fun hc => Except.noConfusion hc)

/-- Failure raised by the `cryptography` library itself:
`rsa.generate_private_key` raises `ValueError` for `key_size` below its
512-bit floor; no check of this repository is involved. -/
inductive CryptoFailure where
  | valueError (msg : String)
deriving DecidableEq, Repr

/-- `generate_rsa_keys(key_size=2048, keys_dir="keys")` from
`src/generate_keys.py`.  Generates the private key with public exponent
65537, derives the public key from it, serializes the private key as
PEM / PKCS#8 / NoEncryption and the public key as PEM /
SubjectPublicKeyInfo, and writes them to `keys_dir/private_key.pem` and
`keys_dir/public_key.pem`.  The function performs no minimum-size check
of its own; the only size constraint is the library's 512-bit floor.
`entropy` models the randomness consumed; print statements and
`mkdir` are irrelevant to the observable file contents and elided. -/
def generate_rsa_keys (key_size : Nat) (keys_dir : String) (entropy : Nat)
    (fs : FileSystem) : Except CryptoFailure (FileSystem × RSAPrivateKey) :=
  if key_size < 512 then
    .error (.valueError "key_size must be at least 512-bits.")
  else
    let private_key : RSAPrivateKey := ⟨key_size, 65537, entropy⟩
    let private_pem : FileContent :=
      .privatePem "PEM" "PKCS8" "NoEncryption" private_key
    let public_key := private_key.public_key
    let public_pem : FileContent :=
      .publicPem "PEM" "SubjectPublicKeyInfo" public_key
    let fs1 := fsWrite fs (keys_dir ++ "/private_key.pem") private_pem
    let fs2 := fsWrite fs1 (keys_dir ++ "/public_key.pem") public_pem
    .ok (fs2, private_key)

/-- The `Settings` fields of `src/app/config.py` that the token code
reads (application/database/CORS fields are unused by it). -/
structure Settings where
  algorithm : String
  private_key_path : String
  public_key_path : String
  access_token_expire_minutes : Int
deriving DecidableEq, Repr

/-- The module-level `settings = Settings()` instance with the defaults
declared in `src/app/config.py`. -/
def settings : Settings :=
  { algorithm := "RS256"
    private_key_path := "keys/private_key.pem"
    public_key_path := "keys/public_key.pem"
    access_token_expire_minutes := 30 }

/-- Failures that `create_access_token` / `verify_token` and the
settings accessors surface to their caller.  `fileNotFoundError` is
Python's builtin `FileNotFoundError` raised by `get_private_key` /
`get_public_key` (it carries the offending path; the fixed hint text of
the message is elided).  `authenticationError` is this repository's
`AuthenticationError` with its message.  `valueError` is an uncaught
`ValueError` escaping from the crypto layer (e.g. key material that
cannot be deserialized), which the `except` clauses of `verify_token`
do not catch. -/
inductive AuthFailure where
  | authenticationError (msg : String)
  | fileNotFoundError (path : String)
  | valueError (msg : String)
deriving DecidableEq, Repr

/-- `Settings.get_private_key`: raise `FileNotFoundError` if the file
does not exist, else return the file's content (`read_text()`) with no
parsing or validation of any kind. -/
def Settings.get_private_key (s : Settings) (fs : FileSystem) :
    Except AuthFailure FileContent :=
  match fsGet fs s.private_key_path with
  | none => .error (.fileNotFoundError s.private_key_path)
  | some c => .ok c

/-- `Settings.get_public_key`: same shape as `get_private_key`. -/
def Settings.get_public_key (s : Settings) (fs : FileSystem) :
    Except AuthFailure FileContent :=
  match fsGet fs s.public_key_path with
  | none => .error (.fileNotFoundError s.public_key_path)
  | some c => .ok c

/-- `cryptography`'s `load_pem_private_key(data, password=None)` as used
by PyJWT's RS256 `prepare_key`: succeeds exactly on an unencrypted PEM
private-key container, otherwise the key cannot be deserialized. -/
def loadPemPrivate (c : FileContent) : Option RSAPrivateKey :=
  match c with
  | .privatePem "PEM" _ "NoEncryption" sk => some sk
  | _ => none

/-- `cryptography`'s `load_pem_public_key(data)`: succeeds exactly on a
PEM public-key container. -/
def loadPemPublic (c : FileContent) : Option RSAPublicKey :=
  match c with
  | .publicPem "PEM" _ pk => some pk
  | _ => none

/-- An RS256 signature: it commits to the signing private key and to the
exact header (algorithm) and payload bytes it was computed over.
Verification against a public key `pk` succeeds iff `pk` is the public
component of `key` and header and payload are unmodified — the standard
symbolic model of an unforgeable signature. -/
structure Sig where
  key : RSAPrivateKey
  alg : String
  payload : JDict
deriving DecidableEq, Repr

/-- A compact-serialization JWT as `verify_token` receives it: either a
string that does not parse into three segments (`malformed`), or header
algorithm + payload + signature segment. -/
inductive Token where
  | malformed (raw : String)
  | signed (alg : String) (payload : JDict) (sig : Sig)
deriving DecidableEq, Repr

/-- The PyJWT exceptions `jwt.decode` can raise, plus the `ValueError`
that the crypto layer raises on undeserializable key material.  All but
`valueError` are subclasses of `jwt.InvalidTokenError`. -/
inductive DecodeFailure where
  | expiredSignature
  | immatureSignature
  | invalidSignature
  | invalidAlgorithm
  | decodeError (msg : String)
  | valueError (msg : String)
deriving DecidableEq, Repr

/-- `str(e)` for the `InvalidTokenError` subclasses above (messages as
PyJWT formats them). -/
def DecodeFailure.message : DecodeFailure → String
  | .expiredSignature => "Signature has expired"
  | .immatureSignature => "The token is not yet valid (nbf)"
  | .invalidSignature => "Signature verification failed"
  | .invalidAlgorithm => "The specified alg value is not allowed"
  | .decodeError msg => msg
  | .valueError msg => msg

/-- PyJWT `jwt.encode(payload, key, algorithm)`: deserialize the signing
key (ValueError if that fails) and emit header+payload+signature, the
signature computed with the private key over exactly that header and
payload. -/
def jwtEncode (payload : JDict) (key : FileContent) (algorithm : String) :
    Except DecodeFailure Token :=
  match loadPemPrivate key with
  | none => .error (.valueError "Could not deserialize key data.")
  | some sk => .ok (.signed algorithm payload ⟨sk, algorithm, payload⟩)

/-- PyJWT's `_validate_iat`: `iat`, when present, must be numeric. -/
def validateIat (payload : JDict) : Except DecodeFailure Unit :=
  match JDict.get payload "iat" with
  | none => .ok ()
  | some (.n _) => .ok ()
  | some (.s _) => .error (.decodeError "Issued At claim (iat) must be an integer.")

/-- PyJWT's `_validate_nbf`: fail when `now < nbf`. -/
def validateNbf (payload : JDict) (now : Int) : Except DecodeFailure Unit :=
  match JDict.get payload "nbf" with
  | none => .ok ()
  | some (.n nbf) => if now < nbf then .error .immatureSignature else .ok ()
  | some (.s _) => .error (.decodeError "Not Before claim (nbf) must be an integer.")

/-- PyJWT's `_validate_exp`: fail when `exp <= now` (i.e. `now >= exp`). -/
def validateExp (payload : JDict) (now : Int) : Except DecodeFailure Unit :=
  match JDict.get payload "exp" with
  | none => .ok ()
  | some (.n exp) => if exp ≤ now then .error .expiredSignature else .ok ()
  | some (.s _) => .error (.decodeError "Expiration Time claim (exp) must be an integer.")

/-- PyJWT `jwt.decode(token, key, algorithms)`, with `now` the single
UTC clock reading PyJWT takes per call.  Order as in PyJWT: segment
parse, header-algorithm check against the allow-list (before any
cryptographic work), key deserialization, signature verification, then
`iat`/`nbf`/`exp` validation in that order. -/
def jwtDecode (tok : Token) (key : FileContent) (algorithms : List String)
    (now : Int) : Except DecodeFailure JDict :=
  match tok with
  | .malformed _ => .error (.decodeError "Not enough segments")
  | .signed alg payload sig =>
    if alg ∉ algorithms then
      .error .invalidAlgorithm
    else
      match loadPemPublic key with
      | none => .error (.valueError "Could not deserialize key data.")
      | some pk =>
        if ¬ (sig.key.public_key = pk ∧ sig.alg = alg ∧ sig.payload = payload) then
          .error .invalidSignature
        else
          match validateIat payload with
          | .error e => .error e
          | .ok _ =>
            match validateNbf payload now with
            | .error e => .error e
            | .ok _ =>
              match validateExp payload now with
              | .error e => .error e
              | .ok _ => .ok payload

/-- Python truthiness of the `expires_delta` argument as tested by
`if expires_delta:` — `None` is falsy and so is `timedelta(0)`; every
nonzero duration is truthy.  Durations are in seconds. -/
def timedeltaTruthy : Option Int → Bool
  | none => false
  | some d => d != 0

/-- `create_access_token(data, expires_delta)` from `src/app/auth.py`.
The three successive `datetime.now(timezone.utc)` calls are passed in as
`now1` (taken while computing `expire`), `now2` (the `iat` value) and
`now3` (the `nbf` value), in source order.  `timedelta(minutes=m)` is
`60 * m` seconds.  `to_encode = data.copy()` then
`to_encode.update({"exp": expire, "iat": now2, "nbf": now3})`;
the private key is loaded through `settings.get_private_key` (whose
`FileNotFoundError` propagates uncaught) and handed to `jwt.encode`
(whose `ValueError` on undeserializable key material also propagates
uncaught). -/
def create_access_token (data : JDict) (expires_delta : Option Int)
    (s : Settings) (fs : FileSystem) (now1 now2 now3 : Int) :
    Except AuthFailure Token :=
  let to_encode := data
  let expire : Int :=
    if timedeltaTruthy expires_delta then
      now1 + expires_delta.getD 0
    else
      now1 + 60 * s.access_token_expire_minutes
  let to_encode := JDict.update to_encode
    [("exp", .n expire), ("iat", .n now2), ("nbf", .n now3)]
  match s.get_private_key fs with
  | .error e => .error e
  | .ok private_key =>
    match jwtEncode to_encode private_key s.algorithm with
    | .error e => .error (.valueError e.message)
    | .ok encoded_jwt => .ok encoded_jwt

/-- How `verify_token`'s `try/except` maps an exception coming out of
`jwt.decode`: `ExpiredSignatureError` is caught first and re-raised as
`AuthenticationError("Token has expired")`; any other
`InvalidTokenError` is re-raised as `AuthenticationError("Invalid
token: " + str(e))`; a `ValueError` matches neither clause and escapes
unchanged. -/
def pyJwtToAuth : DecodeFailure → AuthFailure
  | .expiredSignature => .authenticationError "Token has expired"
  | .valueError msg => .valueError msg
  | e => .authenticationError ("Invalid token: " ++ e.message)

/-- `verify_token(token)` from `src/app/auth.py`: load the public key
via `settings.get_public_key` (its `FileNotFoundError` is not a PyJWT
exception and escapes the `try` uncaught), call `jwt.decode` with
`algorithms=[settings.algorithm]`, return the payload on success and
translate PyJWT exceptions per `pyJwtToAuth`. -/
def verify_token (tok : Token) (s : Settings) (fs : FileSystem)
    (now : Int) : Except AuthFailure JDict :=
  match s.get_public_key fs with
  | .error e => .error e
  | .ok public_key =>
    match jwtDecode tok public_key [s.algorithm] now with
    | .ok payload => .ok payload
    | .error e => .error (pyJwtToAuth e)

/-- A heap of dict objects, for reasoning about which object
`dict.update` mutates.  References are list indices. -/
def heapGet (σ : List JDict) (r : Nat) : JDict := σ.getD r []

/-- `create_access_token` at the level of object identity: the caller's
dict lives at reference `r` in heap `σ`.  `data.copy()` allocates a
fresh object (index `σ.length`) holding the same bindings, and the
subsequent `update` mutates that fresh object in place.  Returns the
final heap together with the call's result. -/
def create_access_token_heap (σ : List JDict) (r : Nat)
    (expires_delta : Option Int) (s : Settings) (fs : FileSystem)
    (now1 now2 now3 : Int) :
    List JDict × Except AuthFailure Token :=
  let rCopy := σ.length
  let σ1 := σ ++ [heapGet σ r]
  let expire : Int :=
    if timedeltaTruthy expires_delta then
      now1 + expires_delta.getD 0
    else
      now1 + 60 * s.access_token_expire_minutes
  let σ2 := σ1.set rCopy (JDict.update (heapGet σ1 rCopy)
    [("exp", .n expire), ("iat", .n now2), ("nbf", .n now3)])
  let result : Except AuthFailure Token :=
    match s.get_private_key fs with
    | .error e => .error e
    | .ok private_key =>
      match jwtEncode (heapGet σ2 rCopy) private_key s.algorithm with
      | .error e => .error (.valueError e.message)
      | .ok encoded_jwt => .ok encoded_jwt
  (σ2, result)

/-- The dynamic type of a call's outcome, for stating which failures are
distinguishable by type alone (Python callers dispatch on exception
class). -/
def failureType : Except AuthFailure JDict → String
  | .ok _ => "ok"
  | .error (.authenticationError _) => "AuthenticationError"
  | .error (.fileNotFoundError _) => "FileNotFoundError"
  | .error (.valueError _) => "ValueError"

/-- The first payload of a successful issuance, `[]` on failure — a
projection used to state facts about issued temporal claims. -/
def payloadOf : Except AuthFailure Token → JDict
  | .ok (.signed _ payload _) => payload
  | _ => []

/-- A persisted key pair is valid when the configured private-key path
holds an unencrypted PKCS#8 PEM private key and the configured
public-key path holds the SubjectPublicKeyInfo PEM serialization of
exactly that key's public component — what `generate_rsa_keys` writes. -/
def validKeyFiles (s : Settings) (fs : FileSystem) (sk : RSAPrivateKey) : Prop :=
  fsGet fs s.private_key_path = some (.privatePem "PEM" "PKCS8" "NoEncryption" sk) ∧
  fsGet fs s.public_key_path = some (.publicPem "PEM" "SubjectPublicKeyInfo" sk.public_key)

instance (s : Settings) (fs : FileSystem) (sk : RSAPrivateKey) :
    Decidable (validKeyFiles s fs sk) := by
  unfold validKeyFiles; infer_instance

/-- A fixed private key used for concrete witnesses. -/
def sk0 : RSAPrivateKey := ⟨2048, 65537, 7⟩

/-- A file system holding a valid persisted key pair for `sk0` at the
configured default paths. -/
def fsOk : FileSystem :=
  [("keys/private_key.pem", .privatePem "PEM" "PKCS8" "NoEncryption" sk0),
   ("keys/public_key.pem", .publicPem "PEM" "SubjectPublicKeyInfo" sk0.public_key)]

section DictLemmas

lemma JDict.get_append (d e : JDict) (k : String) :
    JDict.get (d ++ e) k =
      match JDict.get d k with
      | some v => some v
      | none => JDict.get e k := by
  induction d with
  | nil => simp [JDict.get]
  | cons hd tl ih =>
    obtain ⟨k0, v0⟩ := hd
    by_cases h : k0 = k <;> simp [JDict.get, h, ih]

lemma JDict.set_absent (d : JDict) (k : String) (v : JValue)
    (h : JDict.get d k = none) : JDict.set d k v = d ++ [(k, v)] := by
  induction d with
  | nil => simp [JDict.set]
  | cons hd tl ih =>
    obtain ⟨k0, v0⟩ := hd
    by_cases h0 : k0 = k
    · simp [JDict.get, h0] at h
    · simp [JDict.get, h0] at h
      simp [JDict.set, h0, ih h]

lemma JDict.get_set_self (d : JDict) (k : String) (v : JValue) :
    JDict.get (JDict.set d k v) k = some v := by
  induction d with
  | nil => simp [JDict.set, JDict.get]
  | cons hd tl ih =>
    obtain ⟨k0, v0⟩ := hd
    by_cases h : k0 = k <;> simp [JDict.set, JDict.get, h, ih]

lemma JDict.get_set_ne (d : JDict) (k k' : String) (v : JValue)
    (h : k' ≠ k) :
    JDict.get (JDict.set d k v) k' = JDict.get d k' := by
  have hkk : ¬ k = k' := fun hc => h hc.symm
  induction d with
  | nil => simp [JDict.set, JDict.get, hkk]
  | cons hd tl ih =>
    obtain ⟨k0, v0⟩ := hd
    by_cases h0 : k0 = k
    · have h0' : ¬ k0 = k' := fun hc => h (hc ▸ h0 ▸ rfl)
      simp [JDict.set, JDict.get, h0, h0', hkk]
    · by_cases h0' : k0 = k' <;> simp [JDict.set, JDict.get, h0, h0', h, ih]

lemma fsGet_append (l e : FileSystem) (p : String) :
    fsGet (l ++ e) p =
      match fsGet l p with
      | some c => some c
      | none => fsGet e p := by
  induction l with
  | nil => simp [fsGet]
  | cons hd tl ih =>
    obtain ⟨p0, c0⟩ := hd
    by_cases h : p0 = p <;> simp [fsGet, h, ih]

lemma fsGet_write_self (fs : FileSystem) (p : String) (c : FileContent) :
    fsGet (fsWrite fs p c) p = some c := by
  induction fs with
  | nil => simp [fsWrite, fsGet]
  | cons hd tl ih =>
    obtain ⟨p0, c0⟩ := hd
    by_cases h : p0 = p <;> simp [fsWrite, fsGet, h, ih]

lemma fsGet_write_ne (fs : FileSystem) (p p' : String) (c : FileContent)
    (h : p' ≠ p) : fsGet (fsWrite fs p c) p' = fsGet fs p' := by
  have hpp : ¬ p = p' := fun hc => h hc.symm
  induction fs with
  | nil => simp [fsWrite, fsGet, hpp]
  | cons hd tl ih =>
    obtain ⟨p0, c0⟩ := hd
    by_cases h0 : p0 = p
    · have h0' : ¬ p0 = p' := fun hc => h (hc ▸ h0 ▸ rfl)
      simp [fsWrite, fsGet, h0, h0', hpp]
    · by_cases h0' : p0 = p' <;> simp [fsWrite, fsGet, h0, h0', h, ih]

end DictLemmas

/-- The payload `create_access_token` signs: the caller's claims with
`exp`, `iat`, `nbf` set (overwriting any previous binding) from the
three clock reads. -/
def issuedPayload (data : JDict) (ed : Option Int) (s : Settings)
    (t1 t2 t3 : Int) : JDict :=
  JDict.update data
    [("exp", .n (if timedeltaTruthy ed then t1 + ed.getD 0
                 else t1 + 60 * s.access_token_expire_minutes)),
     ("iat", .n t2), ("nbf", .n t3)]

section IssueVerifyLemmas

lemma issuedPayload_get_exp (data : JDict) (ed : Option Int) (s : Settings)
    (t1 t2 t3 : Int) :
    JDict.get (issuedPayload data ed s t1 t2 t3) "exp" =
      some (.n (if timedeltaTruthy ed then t1 + ed.getD 0
                else t1 + 60 * s.access_token_expire_minutes)) := by
  unfold issuedPayload JDict.update
  simp only [List.foldl]
  rw [JDict.get_set_ne _ _ _ _ (by decide), JDict.get_set_ne _ _ _ _ (by decide),
    JDict.get_set_self]

lemma issuedPayload_get_iat (data : JDict) (ed : Option Int) (s : Settings)
    (t1 t2 t3 : Int) :
    JDict.get (issuedPayload data ed s t1 t2 t3) "iat" = some (.n t2) := by
  unfold issuedPayload JDict.update
  simp only [List.foldl]
  rw [JDict.get_set_ne _ _ _ _ (by decide), JDict.get_set_self]

lemma issuedPayload_get_nbf (data : JDict) (ed : Option Int) (s : Settings)
    (t1 t2 t3 : Int) :
    JDict.get (issuedPayload data ed s t1 t2 t3) "nbf" = some (.n t3) := by
  unfold issuedPayload JDict.update
  simp only [List.foldl]
  rw [JDict.get_set_self]

lemma issuedPayload_absent (data : JDict) (ed : Option Int) (s : Settings)
    (t1 t2 t3 : Int)
    (hx : JDict.get data "exp" = none) (hi : JDict.get data "iat" = none)
    (hb : JDict.get data "nbf" = none) :
    issuedPayload data ed s t1 t2 t3 =
      data ++
        [("exp", .n (if timedeltaTruthy ed then t1 + ed.getD 0
                     else t1 + 60 * s.access_token_expire_minutes)),
         ("iat", .n t2), ("nbf", .n t3)] := by
  unfold issuedPayload JDict.update
  simp only [List.foldl]
  rw [JDict.set_absent _ _ _ hx]
  have hi1 : JDict.get (data ++
      [("exp", JValue.n (if timedeltaTruthy ed then t1 + ed.getD 0
                         else t1 + 60 * s.access_token_expire_minutes))]) "iat" = none := by
    rw [JDict.get_append, hi]
    simp [JDict.get]
  rw [JDict.set_absent _ _ _ hi1]
  have hb1 : JDict.get ((data ++
      [("exp", JValue.n (if timedeltaTruthy ed then t1 + ed.getD 0
                         else t1 + 60 * s.access_token_expire_minutes))]) ++
      [("iat", JValue.n t2)]) "nbf" = none := by
    rw [JDict.get_append, JDict.get_append, hb]
    simp [JDict.get]
  rw [JDict.set_absent _ _ _ hb1]
  simp

lemma create_access_token_ok (data : JDict) (ed : Option Int) (s : Settings)
    (fs : FileSystem) (sk : RSAPrivateKey) (t1 t2 t3 : Int)
    (hkeys : validKeyFiles s fs sk) :
    create_access_token data ed s fs t1 t2 t3 =
      .ok (.signed s.algorithm (issuedPayload data ed s t1 t2 t3)
        ⟨sk, s.algorithm, issuedPayload data ed s t1 t2 t3⟩) := by
  unfold create_access_token Settings.get_private_key
  rw [hkeys.1]
  simp [jwtEncode, loadPemPrivate, issuedPayload]

lemma verify_token_self_signed (pl : JDict) (s : Settings) (fs : FileSystem)
    (sk : RSAPrivateKey) (now e i b : Int)
    (hkeys : validKeyFiles s fs sk)
    (hexp : JDict.get pl "exp" = some (.n e))
    (hiat : JDict.get pl "iat" = some (.n i))
    (hnbf : JDict.get pl "nbf" = some (.n b)) :
    verify_token (.signed s.algorithm pl ⟨sk, s.algorithm, pl⟩) s fs now =
      if now < b then
        .error (.authenticationError "Invalid token: The token is not yet valid (nbf)")
      else if e ≤ now then
        .error (.authenticationError "Token has expired")
      else
        .ok pl := by
  unfold verify_token Settings.get_public_key
  rw [hkeys.2]
  unfold jwtDecode loadPemPublic
  simp [validateIat, validateNbf, validateExp, hexp, hiat, hnbf]
  by_cases h1 : now < b <;> by_cases h2 : e ≤ now <;>
    simp [h1, h2, pyJwtToAuth, DecodeFailure.message]

end IssueVerifyLemmas

/-- C1: for every ClaimSet `C` free of the reserved names `exp`, `iat`,
`nbf`, and every valid persisted key pair, verifying a token produced by
issuance succeeds and returns a superset of `C`, provided the
verification-time clock reading lies in `[issue_time, issue_time + d)`.
Issuance at a single instant `t` means the three clock reads of
`create_access_token` all return `t`. -/
theorem claim1_round_trip_preserves_claims (C : JDict) (sk : RSAPrivateKey)
    (fs : FileSystem) (d t now : Int)
    (hkeys : validKeyFiles settings fs sk)
    (hexp : JDict.get C "exp" = none) (hiat : JDict.get C "iat" = none)
    (hnbf : JDict.get C "nbf" = none)
    (hd : 0 < d) (hlo : t ≤ now) (hhi : now < t + d) :
    ∃ tok payload,
      create_access_token C (some d) settings fs t t t = .ok tok ∧
      verify_token tok settings fs now = .ok payload ∧
      ∀ k v, JDict.get C k = some v → JDict.get payload k = some v := by
  have htr : timedeltaTruthy (some d) = true := by
    simp [timedeltaTruthy]; omega
  have hgexp : JDict.get (issuedPayload C (some d) settings t t t) "exp" =
      some (.n (t + d)) := by
    rw [issuedPayload_get_exp]; simp [htr]
  refine ⟨_, issuedPayload C (some d) settings t t t,
    create_access_token_ok C (some d) settings fs sk t t t hkeys, ?_, ?_⟩
  · rw [verify_token_self_signed (issuedPayload C (some d) settings t t t)
      settings fs sk now (t + d) t t hkeys hgexp
      (issuedPayload_get_iat C (some d) settings t t t)
      (issuedPayload_get_nbf C (some d) settings t t t)]
    rw [if_neg (by omega), if_neg (by omega)]
  · intro k v hkv
    rw [issuedPayload_absent C (some d) settings t t t hexp hiat hnbf]
    rw [JDict.get_append, hkv]

/-- Witness for C1 at a concrete claim set, key pair, duration and
clock readings. -/
theorem claim1_witness :
    validKeyFiles settings fsOk sk0 ∧
    JDict.get [("sub", .s "alice"), ("role", .s "admin")] "exp" = none ∧
    (0 : Int) < 60 ∧ (1000 : Int) ≤ 1030 ∧ (1030 : Int) < 1000 + 60 ∧
    ∃ tok payload,
      create_access_token [("sub", .s "alice"), ("role", .s "admin")]
        (some 60) settings fsOk 1000 1000 1000 = .ok tok ∧
      verify_token tok settings fsOk 1030 = .ok payload ∧
      ∀ k v, JDict.get [("sub", .s "alice"), ("role", .s "admin")] k = some v →
        JDict.get payload k = some v :=
  ⟨by decide, by decide, by decide, by decide, by decide,
   claim1_round_trip_preserves_claims
     [("sub", .s "alice"), ("role", .s "admin")] sk0 fsOk 60 1000 1030
     (by decide) (by decide) (by decide) (by decide)
     (by decide) (by decide) (by decide)⟩

/-- C4: for a token issued at instant `t` (all three issuance clock
reads equal to `t`) with duration `d`, verification against the matching
key pair fails with the expiry outcome — the distinct
`AuthenticationError("Token has expired")` raised on PyJWT's
`ExpiredSignatureError`, which is this code's realization of
`TokenExpiredError` — whenever `now ≥ t + d`, and succeeds for every
`now` strictly inside `[t, t + d)`. -/
theorem claim4_expiry_window (C : JDict) (sk : RSAPrivateKey)
    (fs : FileSystem) (d t now : Int)
    (hkeys : validKeyFiles settings fs sk) (hd : 0 < d) :
    ∃ tok,
      create_access_token C (some d) settings fs t t t = .ok tok ∧
      (t + d ≤ now →
        verify_token tok settings fs now =
          .error (.authenticationError "Token has expired")) ∧
      (t ≤ now → now < t + d →
        ∃ payload, verify_token tok settings fs now = .ok payload) := by
  have htr : timedeltaTruthy (some d) = true := by
    simp [timedeltaTruthy]; omega
  have hgexp : JDict.get (issuedPayload C (some d) settings t t t) "exp" =
      some (.n (t + d)) := by
    rw [issuedPayload_get_exp]; simp [htr]
  refine ⟨_, create_access_token_ok C (some d) settings fs sk t t t hkeys,
    ?_, ?_⟩
  · intro hge
    rw [verify_token_self_signed (issuedPayload C (some d) settings t t t)
      settings fs sk now (t + d) t t hkeys hgexp
      (issuedPayload_get_iat C (some d) settings t t t)
      (issuedPayload_get_nbf C (some d) settings t t t)]
    rw [if_neg (by omega), if_pos (by omega)]
  · intro hlo hhi
    refine ⟨issuedPayload C (some d) settings t t t, ?_⟩
    rw [verify_token_self_signed (issuedPayload C (some d) settings t t t)
      settings fs sk now (t + d) t t hkeys hgexp
      (issuedPayload_get_iat C (some d) settings t t t)
      (issuedPayload_get_nbf C (some d) settings t t t)]
    rw [if_neg (by omega), if_neg (by omega)]

/-- Witness for C4: one instantiation verified at the expiry boundary
`now = t + d` and one strictly inside the validity window. -/
theorem claim4_witness :
    validKeyFiles settings fsOk sk0 ∧ (0 : Int) < 60 ∧
    (∃ tok,
      create_access_token [("sub", .s "bob")] (some 60) settings fsOk 0 0 0 =
        .ok tok ∧
      ((0 : Int) + 60 ≤ 60 →
        verify_token tok settings fsOk 60 =
          .error (.authenticationError "Token has expired")) ∧
      ((0 : Int) ≤ 60 → (60 : Int) < 0 + 60 →
        ∃ payload, verify_token tok settings fsOk 60 = .ok payload)) ∧
    (∃ tok,
      create_access_token [("sub", .s "bob")] (some 60) settings fsOk 0 0 0 =
        .ok tok ∧
      ((0 : Int) + 60 ≤ 30 →
        verify_token tok settings fsOk 30 =
          .error (.authenticationError "Token has expired")) ∧
      ((0 : Int) ≤ 30 → (30 : Int) < 0 + 60 →
        ∃ payload, verify_token tok settings fsOk 30 = .ok payload)) :=
  ⟨by decide, by decide,
   claim4_expiry_window [("sub", .s "bob")] sk0 fsOk 60 0 60
     (by decide) (by decide),
   claim4_expiry_window [("sub", .s "bob")] sk0 fsOk 60 0 30
     (by decide) (by decide)⟩

/-- C2 counterexample: a ClaimSet containing the reserved name `exp` is
accepted — issuance returns a token instead of failing with any
reserved-claim error, and the supplied `exp` value 999 is silently
overwritten by the computed expiry. -/
theorem claim2_counterexample :
    create_access_token [("exp", .n 999)] none settings fsOk 0 0 0 =
      .ok (.signed "RS256"
        [("exp", .n 1800), ("iat", .n 0), ("nbf", .n 0)]
        ⟨sk0, "RS256", [("exp", .n 1800), ("iat", .n 0), ("nbf", .n 0)]⟩) := by
  decide

/-- C2 amended: `create_access_token` performs no reserved-claim check
and never raises for `exp`/`iat`/`nbf` in the input; with a loadable
private key it always succeeds, and the issued payload's `exp`, `iat`,
`nbf` are the issuance-computed values regardless of what the caller
supplied under those names. -/
theorem claim2_amended_reserved_overwritten (data : JDict) (ed : Option Int)
    (fs : FileSystem) (sk : RSAPrivateKey) (t1 t2 t3 : Int)
    (hkeys : validKeyFiles settings fs sk) :
    (∃ tok, create_access_token data ed settings fs t1 t2 t3 = .ok tok) ∧
    JDict.get (payloadOf (create_access_token data ed settings fs t1 t2 t3))
        "exp" =
      some (.n (if timedeltaTruthy ed then t1 + ed.getD 0
                else t1 + 60 * settings.access_token_expire_minutes)) ∧
    JDict.get (payloadOf (create_access_token data ed settings fs t1 t2 t3))
        "iat" = some (.n t2) ∧
    JDict.get (payloadOf (create_access_token data ed settings fs t1 t2 t3))
        "nbf" = some (.n t3) := by
  rw [create_access_token_ok data ed settings fs sk t1 t2 t3 hkeys]
  refine ⟨⟨_, rfl⟩, ?_, ?_, ?_⟩ <;>
    simp [payloadOf, issuedPayload_get_exp, issuedPayload_get_iat,
      issuedPayload_get_nbf]

/-- Witness for C2 amended at a ClaimSet that supplies all three
reserved names. -/
theorem claim2_witness :
    validKeyFiles settings fsOk sk0 ∧
    ((∃ tok, create_access_token
        [("exp", .n 999), ("iat", .n 5), ("nbf", .n 7)] none settings fsOk
        10 11 12 = .ok tok) ∧
     JDict.get (payloadOf (create_access_token
        [("exp", .n 999), ("iat", .n 5), ("nbf", .n 7)] none settings fsOk
        10 11 12)) "exp" =
       some (.n (if timedeltaTruthy none then 10 + Option.getD none 0
                 else 10 + 60 * settings.access_token_expire_minutes)) ∧
     JDict.get (payloadOf (create_access_token
        [("exp", .n 999), ("iat", .n 5), ("nbf", .n 7)] none settings fsOk
        10 11 12)) "iat" = some (.n 11) ∧
     JDict.get (payloadOf (create_access_token
        [("exp", .n 999), ("iat", .n 5), ("nbf", .n 7)] none settings fsOk
        10 11 12)) "nbf" = some (.n 12)) :=
  ⟨by decide,
   claim2_amended_reserved_overwritten
     [("exp", .n 999), ("iat", .n 5), ("nbf", .n 7)] none fsOk sk0 10 11 12
     (by decide)⟩

/-- C3 counterexample: five structurally different verification
failures — malformed token, header algorithm other than RS256, signature
by a different key, not-yet-valid token, expired token — are all
surfaced to the caller as the same dynamic failure type
`AuthenticationError`, so the core does merge them into a single generic
failure type, contrary to the claim's distinct typed outcomes. -/
theorem claim3_counterexample :
    failureType (verify_token (.malformed "garbage") settings fsOk 0) =
      "AuthenticationError" ∧
    failureType (verify_token
      (.signed "HS256" [("sub", .s "a")] ⟨sk0, "HS256", [("sub", .s "a")]⟩)
      settings fsOk 0) = "AuthenticationError" ∧
    failureType (verify_token
      (.signed "RS256" [("sub", .s "a")]
        ⟨⟨2048, 65537, 8⟩, "RS256", [("sub", .s "a")]⟩)
      settings fsOk 0) = "AuthenticationError" ∧
    failureType (verify_token
      (.signed "RS256" [("nbf", .n 10)] ⟨sk0, "RS256", [("nbf", .n 10)]⟩)
      settings fsOk 0) = "AuthenticationError" ∧
    failureType (verify_token
      (.signed "RS256" [("exp", .n 0)] ⟨sk0, "RS256", [("exp", .n 0)]⟩)
      settings fsOk 0) = "AuthenticationError" := by
  decide

/-- C3 amended: `verify_token` collapses every PyJWT verification
failure into the single exception type `AuthenticationError`; only the
message distinguishes causes — `"Token has expired"` for expiry and
`"Invalid token: <detail>"` for every other `InvalidTokenError`.  (An
uncaught `ValueError` from undeserializable key material is the one
failure that escapes with a different type, and it is excluded here.) -/
theorem claim3_amended_single_failure_type (tok : Token) (s : Settings)
    (fs : FileSystem) (now : Int) (c : FileContent) (e : DecodeFailure)
    (hpk : s.get_public_key fs = .ok c)
    (hdec : jwtDecode tok c [s.algorithm] now = .error e)
    (hnv : ∀ m, e ≠ .valueError m) :
    verify_token tok s fs now =
      .error (.authenticationError
        (if e = .expiredSignature then "Token has expired"
         else "Invalid token: " ++ e.message)) := by
  unfold verify_token
  rw [hpk]
  dsimp only
  rw [hdec]
  cases e with
  | expiredSignature => simp [pyJwtToAuth]
  | immatureSignature => simp [pyJwtToAuth, DecodeFailure.message]
  | invalidSignature => simp [pyJwtToAuth, DecodeFailure.message]
  | invalidAlgorithm => simp [pyJwtToAuth, DecodeFailure.message]
  | decodeError m => simp [pyJwtToAuth, DecodeFailure.message]
  | valueError m => exact absurd rfl (hnv m)

/-- Witness for C3 amended at an algorithm-mismatch failure. -/
theorem claim3_witness :
    settings.get_public_key fsOk =
      .ok (.publicPem "PEM" "SubjectPublicKeyInfo" sk0.public_key) ∧
    jwtDecode (.signed "HS256" [("sub", .s "a")] ⟨sk0, "HS256", [("sub", .s "a")]⟩)
      (.publicPem "PEM" "SubjectPublicKeyInfo" sk0.public_key)
      [settings.algorithm] 0 = .error .invalidAlgorithm ∧
    verify_token
      (.signed "HS256" [("sub", .s "a")] ⟨sk0, "HS256", [("sub", .s "a")]⟩)
      settings fsOk 0 =
      .error (.authenticationError
        (if DecodeFailure.invalidAlgorithm = .expiredSignature then
          "Token has expired"
         else "Invalid token: " ++
           DecodeFailure.message .invalidAlgorithm)) :=
  ⟨by decide, by decide,
   claim3_amended_single_failure_type
     (.signed "HS256" [("sub", .s "a")] ⟨sk0, "HS256", [("sub", .s "a")]⟩)
     settings fsOk 0
     (.publicPem "PEM" "SubjectPublicKeyInfo" sk0.public_key)
     .invalidAlgorithm (by decide) (by decide) (fun m h => nomatch h)⟩

/-- C5 counterexample: `generate_rsa_keys(key_size=1024)` succeeds —
no WeakKeyError (or any minimum-strength rejection) exists in the code;
a full 1024-bit key pair is generated and persisted. -/
theorem claim5_counterexample :
    generate_rsa_keys 1024 "keys" 0 [] =
      .ok ([("keys/private_key.pem",
              .privatePem "PEM" "PKCS8" "NoEncryption" ⟨1024, 65537, 0⟩),
            ("keys/public_key.pem",
              .publicPem "PEM" "SubjectPublicKeyInfo" ⟨1024, 65537, 0⟩)],
           ⟨1024, 65537, 0⟩) := by
  decide

/-- C5 amended: `generate_rsa_keys` imposes no 2048-bit minimum of its
own — every requested size at or above the crypto library's 512-bit
floor succeeds (1024 included), producing a key of the requested size
with public exponent 65537; in particular 2048 succeeds as the claim
says. -/
theorem claim5_amended_no_minimum_check (key_size : Nat) (keys_dir : String)
    (entropy : Nat) (fs : FileSystem) (h : 512 ≤ key_size) :
    ∃ fs' sk, generate_rsa_keys key_size keys_dir entropy fs = .ok (fs', sk) ∧
      sk.key_size = key_size ∧ sk.public_exponent = 65537 := by
  refine ⟨fsWrite (fsWrite fs (keys_dir ++ "/private_key.pem")
      (.privatePem "PEM" "PKCS8" "NoEncryption" ⟨key_size, 65537, entropy⟩))
      (keys_dir ++ "/public_key.pem")
      (.publicPem "PEM" "SubjectPublicKeyInfo"
        (RSAPrivateKey.public_key ⟨key_size, 65537, entropy⟩)),
    ⟨key_size, 65537, entropy⟩, ?_, rfl, rfl⟩
  unfold generate_rsa_keys
  rw [if_neg (by omega)]

/-- Witness for C5 amended at the FIPS-minimum size 2048. -/
theorem claim5_witness :
    512 ≤ 2048 ∧
    ∃ fs' sk, generate_rsa_keys 2048 "keys" 0 [] = .ok (fs', sk) ∧
      sk.key_size = 2048 ∧ sk.public_exponent = 65537 :=
  ⟨by decide, claim5_amended_no_minimum_check 2048 "keys" 0 [] (by decide)⟩

/-- C6 counterexample: one issuance whose three successive clock reads
return 0, 1, 2 (a strictly advancing clock) produces `exp = 1800`,
`iat = 1`, `nbf = 2` — so `iat ≠ nbf` and `exp - iat = 1799 ≠ 1800`
even for a default-duration token, refuting the single-clock-reading
claim. -/
theorem claim6_counterexample :
    JDict.get (payloadOf (create_access_token [("sub", .s "alice")] none
      settings fsOk 0 1 2)) "exp" = some (.n 1800) ∧
    JDict.get (payloadOf (create_access_token [("sub", .s "alice")] none
      settings fsOk 0 1 2)) "iat" = some (.n 1) ∧
    JDict.get (payloadOf (create_access_token [("sub", .s "alice")] none
      settings fsOk 0 1 2)) "nbf" = some (.n 2) ∧
    (1800 : Int) - 1 ≠ 1800 ∧ (1 : Int) ≠ 2 := by
  decide

/-- C6 amended: issuance reads the UTC clock three separate times — once
as the base of the expiry, once for `iat`, once for `nbf` — and sets
`exp = r1 + d` (with `d` the default `60 * access_token_expire_minutes`
= 1800 s when no override is supplied), `iat = r2` and `nbf = r3`; only
when the three reads coincide do `iat = nbf` and `exp - iat = 1800`
hold. -/
theorem claim6_amended_three_clock_reads (data : JDict) (fs : FileSystem)
    (sk : RSAPrivateKey) (r1 r2 r3 : Int)
    (hkeys : validKeyFiles settings fs sk) :
    JDict.get (payloadOf (create_access_token data none settings fs
      r1 r2 r3)) "exp" = some (.n (r1 + 1800)) ∧
    JDict.get (payloadOf (create_access_token data none settings fs
      r1 r2 r3)) "iat" = some (.n r2) ∧
    JDict.get (payloadOf (create_access_token data none settings fs
      r1 r2 r3)) "nbf" = some (.n r3) := by
  rw [create_access_token_ok data none settings fs sk r1 r2 r3 hkeys]
  refine ⟨?_, ?_, ?_⟩ <;>
    simp [payloadOf, issuedPayload_get_exp, issuedPayload_get_iat,
      issuedPayload_get_nbf, timedeltaTruthy, settings]

/-- Witness for C6 amended with coinciding clock reads, where the
spec's `exp - iat = 1800` relation does hold. -/
theorem claim6_witness :
    validKeyFiles settings fsOk sk0 ∧
    (JDict.get (payloadOf (create_access_token [("sub", .s "alice")] none
       settings fsOk 50 50 50)) "exp" = some (.n (50 + 1800)) ∧
     JDict.get (payloadOf (create_access_token [("sub", .s "alice")] none
       settings fsOk 50 50 50)) "iat" = some (.n 50) ∧
     JDict.get (payloadOf (create_access_token [("sub", .s "alice")] none
       settings fsOk 50 50 50)) "nbf" = some (.n 50)) :=
  ⟨by decide,
   claim6_amended_three_clock_reads [("sub", .s "alice")] fsOk sk0 50 50 50
     (by decide)⟩

/-- C7 counterexample: a private-key file that exists but holds
unparseable content is returned as-is by `get_private_key` — the load
succeeds and no KeyFormatError (no failure of any kind) is raised at
load time. -/
theorem claim7_counterexample :
    settings.get_private_key
        [("keys/private_key.pem", .raw "not a pem key")] =
      .ok (.raw "not a pem key") := by
  decide

/-- C7 amended: the loaders fail with the distinct typed
`FileNotFoundError` (carrying the configured path) exactly when the file
does not exist, and otherwise return the raw file text with no parsing
or format validation at load time; malformed key content only surfaces
later, when the key is used — e.g. issuance with a raw non-key file
fails with the crypto layer's uncaught `ValueError`. -/
theorem claim7_amended_load_unvalidated (fs : FileSystem) :
    (fsGet fs settings.private_key_path = none →
      settings.get_private_key fs =
        .error (.fileNotFoundError settings.private_key_path)) ∧
    (∀ c, fsGet fs settings.private_key_path = some c →
      settings.get_private_key fs = .ok c) ∧
    (fsGet fs settings.public_key_path = none →
      settings.get_public_key fs =
        .error (.fileNotFoundError settings.public_key_path)) ∧
    (∀ c, fsGet fs settings.public_key_path = some c →
      settings.get_public_key fs = .ok c) ∧
    (∀ txt data t1 t2 t3,
      fsGet fs settings.private_key_path = some (.raw txt) →
      create_access_token data none settings fs t1 t2 t3 =
        .error (.valueError "Could not deserialize key data.")) := by
  refine ⟨?_, ?_, ?_, ?_, ?_⟩
  · intro h
    unfold Settings.get_private_key
    rw [h]
  · intro c h
    unfold Settings.get_private_key
    rw [h]
  · intro h
    unfold Settings.get_public_key
    rw [h]
  · intro c h
    unfold Settings.get_public_key
    rw [h]
  · intro txt data t1 t2 t3 h
    unfold create_access_token Settings.get_private_key
    rw [h]
    simp [jwtEncode, loadPemPrivate, DecodeFailure.message]

/-- Witness for C7 amended: both loaders on an empty file system, and
issuance against a raw non-key file. -/
theorem claim7_witness :
    settings.get_private_key [] =
      .error (.fileNotFoundError settings.private_key_path) ∧
    settings.get_public_key [] =
      .error (.fileNotFoundError settings.public_key_path) ∧
    create_access_token [("sub", .s "a")] none settings
        [("keys/private_key.pem", .raw "garbage")] 0 0 0 =
      .error (.valueError "Could not deserialize key data.") :=
  ⟨(claim7_amended_load_unvalidated []).1 rfl,
   (claim7_amended_load_unvalidated []).2.2.1 rfl,
   (claim7_amended_load_unvalidated
      [("keys/private_key.pem", .raw "garbage")]).2.2.2.2
     "garbage" [("sub", .s "a")] 0 0 0 rfl⟩

/-- C8: every key pair produced by `generate_rsa_keys` satisfies the
invariant that the persisted public key is exactly the serialization of
the public component derived from the persisted private key
(`private_key.public_key()`), both produced by the one generation
operation; the private key is written in unencrypted PKCS#8 PEM form and
the public key in SubjectPublicKeyInfo PEM form, at two distinct
storage locations. -/
theorem claim8_keypair_invariant_persistence (key_size : Nat)
    (keys_dir : String) (entropy : Nat) (fs : FileSystem)
    (h : 512 ≤ key_size) :
    ∃ fs' sk, generate_rsa_keys key_size keys_dir entropy fs = .ok (fs', sk) ∧
      fsGet fs' (keys_dir ++ "/private_key.pem") =
        some (.privatePem "PEM" "PKCS8" "NoEncryption" sk) ∧
      fsGet fs' (keys_dir ++ "/public_key.pem") =
        some (.publicPem "PEM" "SubjectPublicKeyInfo" sk.public_key) ∧
      keys_dir ++ "/private_key.pem" ≠ keys_dir ++ "/public_key.pem" := by
  have hneq : keys_dir ++ "/private_key.pem" ≠
      keys_dir ++ "/public_key.pem" := by
    intro hc
    have h2 := congrArg String.data hc
    simp only [String.data_append] at h2
    have h3 := List.append_cancel_left h2
    simp at h3
  refine ⟨fsWrite (fsWrite fs (keys_dir ++ "/private_key.pem")
      (.privatePem "PEM" "PKCS8" "NoEncryption" ⟨key_size, 65537, entropy⟩))
      (keys_dir ++ "/public_key.pem")
      (.publicPem "PEM" "SubjectPublicKeyInfo"
        (RSAPrivateKey.public_key ⟨key_size, 65537, entropy⟩)),
    ⟨key_size, 65537, entropy⟩, ?_, ?_, ?_, hneq⟩
  · unfold generate_rsa_keys
    rw [if_neg (by omega)]
  · rw [fsGet_write_ne _ _ _ _ hneq]
    exact fsGet_write_self _ _ _
  · exact fsGet_write_self _ _ _

/-- Witness for C8 at the default 2048-bit size and default directory. -/
theorem claim8_witness :
    512 ≤ 2048 ∧
    ∃ fs' sk, generate_rsa_keys 2048 "keys" 0 [] = .ok (fs', sk) ∧
      fsGet fs' ("keys" ++ "/private_key.pem") =
        some (.privatePem "PEM" "PKCS8" "NoEncryption" sk) ∧
      fsGet fs' ("keys" ++ "/public_key.pem") =
        some (.publicPem "PEM" "SubjectPublicKeyInfo" sk.public_key) ∧
      "keys" ++ "/private_key.pem" ≠ "keys" ++ "/public_key.pem" :=
  ⟨by decide, claim8_keypair_invariant_persistence 2048 "keys" 0 [] (by decide)⟩

/-- C9: `create_access_token` never mutates the caller's claims dict —
in the heap model, `data.copy()` allocates a fresh object and the
`update` adding `exp`/`iat`/`nbf` mutates only that copy, so the object
the caller's reference points to is unchanged by the call. -/
theorem claim9_no_caller_mutation (σ : List JDict) (r : Nat)
    (ed : Option Int) (s : Settings) (fs : FileSystem) (t1 t2 t3 : Int)
    (h : r < σ.length) :
    heapGet (create_access_token_heap σ r ed s fs t1 t2 t3).1 r =
      heapGet σ r := by
  unfold create_access_token_heap heapGet
  rw [List.getD_eq_getElem?_getD, List.getD_eq_getElem?_getD]
  rw [List.getElem?_set_ne (by omega)]
  rw [List.getElem?_append, if_pos h]

/-- Witness for C9 at a concrete one-object heap. -/
theorem claim9_witness :
    0 < [[(("sub" : String), JValue.s "alice")]].length ∧
    heapGet (create_access_token_heap [[(("sub" : String), JValue.s "alice")]]
      0 none settings fsOk 5 5 5).1 0 =
      heapGet [[(("sub" : String), JValue.s "alice")]] 0 :=
  ⟨by decide,
   claim9_no_caller_mutation [[(("sub" : String), JValue.s "alice")]] 0 none
     settings fsOk 5 5 5 (by decide)⟩

/-- C10: because the override is tested with `if expires_delta:`
(truthiness) rather than a presence check, `expires_delta = timedelta(0)`
behaves identically to an omitted `expires_delta` for every input and
every settings object — and with the default configuration the resulting
token's `exp` is the full 1800 seconds (30 minutes) after the expiry
clock read, instead of an already-expired token. -/
theorem claim10_zero_delta_default (data : JDict) (fs : FileSystem)
    (sk : RSAPrivateKey) (t1 t2 t3 : Int)
    (hkeys : validKeyFiles settings fs sk) :
    (∀ (s' : Settings) (fs' : FileSystem),
      create_access_token data (some 0) s' fs' t1 t2 t3 =
        create_access_token data none s' fs' t1 t2 t3) ∧
    JDict.get (payloadOf (create_access_token data (some 0) settings fs
      t1 t2 t3)) "exp" = some (.n (t1 + 1800)) := by
  constructor
  · intro s' fs'
    unfold create_access_token
    simp [timedeltaTruthy]
  · rw [create_access_token_ok data (some 0) settings fs sk t1 t2 t3 hkeys]
    simp [payloadOf, issuedPayload_get_exp, timedeltaTruthy, settings]

/-- Witness for C10 at concrete clock readings. -/
theorem claim10_witness :
    validKeyFiles settings fsOk sk0 ∧
    ((∀ (s' : Settings) (fs' : FileSystem),
       create_access_token [("sub", .s "a")] (some 0) s' fs' 100 100 100 =
         create_access_token [("sub", .s "a")] none s' fs' 100 100 100) ∧
     JDict.get (payloadOf (create_access_token [("sub", .s "a")] (some 0)
       settings fsOk 100 100 100)) "exp" = some (.n (100 + 1800))) :=
  ⟨by decide,
   claim10_zero_delta_default [("sub", .s "a")] fsOk sk0 100 100 100
     (by decide)⟩

end TaskAuth
